import Mathlib

/-!
Verification of the MedSchool sandboxed code-execution core.

Shallow embedding of:
  - src/docker/sandbox/execd.py            (the ExecutionBroker run handler)
  - src/docker/mcp_server/tools/python_exec.py (the direct-code tool)
  - src/docker/mcp_server/tools/shell_exec.py  (the shell tool)

Python strings are modelled as Lean String (a list of characters); Python
str slicing s[:n] is List.take n on the character data, and Python
str.strip() is modelled by pyStrip below.  The subprocess the broker
launches is abstracted as a function from the enforced deadline to an
outcome (completed with captured stdout/stderr/returncode, timed out, or a
launch failure); JSON decoding in the adapters is abstracted as a
parameter returning an optional decoded value, since the claims only
condition on whether decoding succeeds.
-/

namespace MedSchool

/-- Python str.isspace-style whitespace, the characters stripped by
Python str.strip(). -/
def isPyWhitespace (c : Char) : Bool :=
  c = ' ' || c = '\t' || c = '\n' || c = '\x0d' || c = '\x0b' || c = '\x0c'

/-- Model of Python str.strip(): drop leading and trailing whitespace. -/
def pyStrip (s : String) : String :=
  ⟨((s.data.dropWhile isPyWhitespace).reverse.dropWhile isPyWhitespace).reverse⟩

/-! ## execd.py — the broker -/

/-- execd.py line 11: OUTPUT_CAP = 32_768. -/
def OUTPUT_CAP : Nat := 32768

/-- Request body of POST /run (execd.py RunReq).  timeout_s, mem_mb are
Python ints; cpus is a Python float, modelled as a rational. -/
structure RunReq where
  code : String
  timeout_s : Int
  mem_mb : Int
  cpus : Rat
deriving DecidableEq

/-- The pydantic field bounds on RunReq (ge/le validators in execd.py). -/
def RunReq.Valid (r : RunReq) : Prop :=
  1 ≤ r.timeout_s ∧ r.timeout_s ≤ 30 ∧
  64 ≤ r.mem_mb ∧ r.mem_mb ≤ 4096 ∧
  (1 : Rat) / 10 ≤ r.cpus ∧ r.cpus ≤ 2

/-- Response body of POST /run (execd.py RunResp). -/
structure RunResp where
  stdout : String
  stderr : String
  exit_code : Int
deriving DecidableEq

/-- Outcome of the subprocess.run call inside the run handler:
the child completed within the deadline (with its captured streams and
return code), the deadline expired (subprocess.TimeoutExpired), or the
launch itself failed (FileNotFoundError and other exceptions). -/
inductive ProcOutcome where
  | completed (stdout stderr : String) (returncode : Int)
  | timedOut
  | launchFailure (msg : String)
deriving DecidableEq

/-- What the run handler sends back over HTTP: a 2xx RunResp body, or an
HTTPException with a status code and detail. -/
inductive RunOutcome where
  | ok (resp : RunResp)
  | httpError (status : Nat) (detail : String)
deriving DecidableEq

/-- execd.py lines 65-66: (proc.stdout or "")[:OUTPUT_CAP] — silent
truncation of a captured stream to the first OUTPUT_CAP characters. -/
def capOutput (s : String) : String :=
  ⟨s.data.take OUTPUT_CAP⟩

/-- execd.py lines 57-73, the result construction of the run handler:
completed processes get capped streams and their real exit code;
subprocess.TimeoutExpired yields the synthetic triple
(stdout="", stderr="TIMEOUT", exit_code=124); launch failures become an
HTTP 500. -/
def runRespond : ProcOutcome → RunOutcome
  | .completed out err rc => .ok ⟨capOutput out, capOutput err, rc⟩
  | .timedOut => .ok ⟨"", "TIMEOUT", 124⟩
  | .launchFailure m => .httpError 500 m

/-- execd.py lines 57-64: the deadline handed to subprocess.run is
min(req.timeout_s, DEFAULT_TIMEOUT); DEFAULT_TIMEOUT is the
server-configured ceiling, passed here as an argument. -/
def enforcedDeadline (req : RunReq) (ceiling : Int) : Int :=
  min req.timeout_s ceiling

/-- The run handler (execd.py run): launch the isolated process with the
request code on stdin, wait up to min(req.timeout_s, ceiling), and shape
the response.  proc abstracts the subprocess as a function from the
enforced wall-clock deadline to its outcome. -/
def run (req : RunReq) (ceiling : Int) (proc : Int → ProcOutcome) : RunOutcome :=
  runRespond (proc (min req.timeout_s ceiling))

/-! ## python_exec.py — the direct-code tool -/

/-- Structured result returned to the MCP client (python_exec.py
PythonExecResult).  The json field holds the stdout parsed as JSON when
that parse succeeds; the JSON value type is abstracted as α. -/
structure PythonExecResult (α : Type) where
  stdout : String
  stderr : String
  exit_code : Int
  json : Option α
deriving DecidableEq

/-- A tool call either raises a fastmcp ToolError with a message, or
returns a structured result. -/
inductive PyOutcome (α : Type) where
  | toolError (msg : String)
  | success (result : PythonExecResult α)
deriving DecidableEq

/-- python_exec.py lines 53-59: the fixed introspection snippet
substituted when no code is provided (Python version + installed
packages).  Braces and quotes of the Python source are escaped. -/
def introspectionSnippet : String :=
  "import json,importlib.metadata,platform\npkgs=[\x7b\x27name\x27:d.metadata[\x27Name\x27],\x27version\x27:d.version\x7d      for d in importlib.metadata.distributions()]\nprint(json.dumps(\x7b\x27python\x27:platform.python_version(),                  \x27packages\x27:pkgs\x7d))"

/-- python_exec.py lines 50-59: the argument code is a Python
`str | None` defaulting to None; the guard `if not code:` replaces a
missing OR empty-string code with the introspection snippet. -/
def selectCode : Option String → String
  | none => introspectionSnippet
  | some c => if c = "" then introspectionSnippet else c

/-- python_exec.py lines 93-94: the stderr excerpt is hard-capped at 800
characters, with a trailing ellipsis when longer. -/
def stderrSnippet (s : String) : String :=
  if s.length > 800 then ⟨s.data.take 800⟩ ++ "…" else s

/-- python_exec.py lines 89-95: the ToolError message for a non-zero
sandbox exit: the exit code always, plus a trimmed stderr excerpt when
err.strip() is non-empty. -/
def pyErrMsg (exit_code : Int) (err : String) : String :=
  let base := "sandbox failed (exit " ++ toString exit_code ++ ")"
  if pyStrip err = "" then base
  else base ++ ": " ++ stderrSnippet (pyStrip err)

/-- python_exec.py lines 100-103: the ToolError message raised on zero
exit with no stdout. -/
def noStdoutMsg : String :=
  "No stdout captured. Make sure to print any results you want to use (prefer JSON, e.g., print(json.dumps(\x7b...\x7d)))."

/-- python_exec.py lines 82-113: classification of a broker RunResp after
a successful transport round trip.  parseJson abstracts
json.loads-with-exception-swallowed (python_exec.py lines 106-110):
none when stdout is not valid JSON. -/
def pythonExecHandle {α : Type} (parseJson : String → Option α)
    (data : RunResp) : PyOutcome α :=
  let out := data.stdout
  let err := data.stderr
  let exit_code := data.exit_code
  if exit_code ≠ 0 then
    .toolError (pyErrMsg exit_code err)
  else if pyStrip out = "" then
    .toolError noStdoutMsg
  else
    .success ⟨out, err, exit_code, parseJson out⟩

/-! ## shell_exec.py — the shell tool -/

/-- The JSON object printed by the synthesized wrapper, as read back with
dict.get: each field may be absent (shell_exec.py lines 84-87).  A
decoded outer stdout that is not an object of this shape — or an
exit_code that int() cannot convert — ends in the except-branch, which
the parse abstraction reports as none. -/
structure InnerObj where
  stdout : Option String
  stderr : Option String
  exit_code : Option Int
deriving DecidableEq

/-- Structured result of the shell tool (shell_exec.py ShellExecResult). -/
structure ShellExecResult where
  stdout : String
  stderr : String
  exit_code : Int
deriving DecidableEq

/-- shell_exec.py lines 75-91: unwrap the outer broker result.  The outer
stdout is stripped; if empty, a successful empty result with the outer
stderr and exit_code 0.  Otherwise json.loads (abstracted as parse) is
tried: on success the inner triple is returned, the inner stderr falling
back to the outer stderr when falsy (the Python `or`); on failure the
stripped outer stdout is returned with exit_code 0. -/
def shellUnwrap (parse : String → Option InnerObj) (data : RunResp) :
    ShellExecResult :=
  let out := pyStrip data.stdout
  let err := data.stderr
  if out = "" then ⟨"", err, 0⟩
  else
    match parse out with
    | some inner =>
        ⟨inner.stdout.getD "",
         if inner.stderr.getD "" = "" then err else inner.stderr.getD "",
         inner.exit_code.getD 0⟩
    | none => ⟨out, err, 0⟩

/-! ## Claims about the broker (execd.py) -/

/-- Claim C1: every ExecutionRequest whose process runs past the
effective deadline gets exactly the synthetic result exit_code=124,
stderr="TIMEOUT", stdout=""; and no other path introduces a synthetic
exit code — a completed process reports its real return code with capped
streams, and a launch failure is an HTTP error, not a RunResp. -/
theorem c1_timeout_synthetic_result :
    (∀ (req : RunReq) (ceiling : Int),
      run req ceiling (fun _ => .timedOut) = .ok ⟨"", "TIMEOUT", 124⟩)
    ∧ (∀ (o : ProcOutcome) (r : RunResp), runRespond o = .ok r →
        (o = .timedOut ∧ r = ⟨"", "TIMEOUT", 124⟩)
        ∨ (∃ so se rc, o = .completed so se rc
            ∧ r = ⟨capOutput so, capOutput se, rc⟩)) := by
  constructor
  · intro req ceiling; rfl
  · intro o r h
    cases o with
    | completed so se rc =>
        right
        refine ⟨so, se, rc, rfl, ?_⟩
        cases h; rfl
    | timedOut =>
        left
        refine ⟨rfl, ?_⟩
        cases h; rfl
    | launchFailure m => exact absurd h (by simp [runRespond])

/-- Witness for C1: the inversion applied to the timeout outcome and its
synthetic response. -/
theorem c1_witness :
    (ProcOutcome.timedOut = .timedOut
      ∧ (⟨"", "TIMEOUT", 124⟩ : RunResp) = ⟨"", "TIMEOUT", 124⟩)
    ∨ (∃ so se rc, ProcOutcome.timedOut = .completed so se rc
        ∧ (⟨"", "TIMEOUT", 124⟩ : RunResp) = ⟨capOutput so, capOutput se, rc⟩) :=
  c1_timeout_synthetic_result.2 .timedOut ⟨"", "TIMEOUT", 124⟩ rfl

/-- Claim C3: a completed process gets back both streams capped by
capOutput; capOutput keeps exactly the first OUTPUT_CAP characters (so
its length is min OUTPUT_CAP with the stream length: exactly the cap
when the stream exceeds it), appends no marker, and leaves a stream
within the cap unchanged.  capOutput is a total function, so capping
never raises. -/
theorem c3_output_capping :
    (∀ (req : RunReq) (ceiling : Int) (out err : String) (rc : Int),
      run req ceiling (fun _ => .completed out err rc)
        = .ok ⟨capOutput out, capOutput err, rc⟩)
    ∧ (∀ s : String,
        (capOutput s).data = s.data.take OUTPUT_CAP
        ∧ (capOutput s).length = min OUTPUT_CAP s.length
        ∧ (s.length ≤ OUTPUT_CAP → capOutput s = s)) := by
  refine ⟨fun req ceiling out err rc => rfl, fun s => ⟨rfl, ?_, ?_⟩⟩
  · show (s.data.take OUTPUT_CAP).length = min OUTPUT_CAP s.data.length
    exact List.length_take OUTPUT_CAP s.data
  · intro h
    show String.mk (s.data.take OUTPUT_CAP) = s
    rw [List.take_of_length_le h]

/-- Witness for C3: a two-character stream is within the cap and passes
through unchanged. -/
theorem c3_witness :
    ("ab" : String).length ≤ OUTPUT_CAP ∧ capOutput "ab" = "ab" :=
  ⟨by decide, (c3_output_capping.2 "ab").2.2 (by decide)⟩

/-- Claim C7: the wall-clock deadline the broker enforces equals
min(timeout_s, ceiling): it never exceeds the requested timeout (the
ceiling can lower but never raise it), equals the request timeout when
the ceiling allows it and the ceiling otherwise, and run consults the
abstract process exactly at that deadline. -/
theorem c7_enforced_deadline :
    ∀ (req : RunReq) (ceiling : Int),
      enforcedDeadline req ceiling ≤ req.timeout_s
      ∧ enforcedDeadline req ceiling ≤ ceiling
      ∧ (req.timeout_s ≤ ceiling → enforcedDeadline req ceiling = req.timeout_s)
      ∧ (ceiling ≤ req.timeout_s → enforcedDeadline req ceiling = ceiling)
      ∧ (∀ proc : Int → ProcOutcome,
          run req ceiling proc = runRespond (proc (enforcedDeadline req ceiling))) :=
  fun _req _c =>
    ⟨min_le_left _ _, min_le_right _ _,
     fun h => min_eq_left h, fun h => min_eq_right h, fun _ => rfl⟩

/-- Witness for C7: a request timeout of 6 against the default ceiling 7
yields an enforced deadline of 6. -/
theorem c7_witness :
    ((6 : Int) ≤ 7) ∧ enforcedDeadline ⟨"", 6, 512, 1⟩ 7 = 6 :=
  ⟨by decide, (c7_enforced_deadline ⟨"", 6, 512, 1⟩ 7).2.2.1 (by decide)⟩

/-! ## Claims about the direct-code tool (python_exec.py) -/

/-- A trivial JSON-parse abstraction (every string fails to parse),
used to instantiate the tool at concrete inputs. -/
def pjUnit : String → Option Unit := fun _ => none

/-- Counterexample to claim C2 as stated: at the broker response
stdout=" ", stderr="w", exit_code=0 neither stream is empty, so the
claim predicts the result is returned without error; the code raises
the no-stdout ToolError, because it tests only stdout.strip() and never
consults stderr. -/
theorem c2_counterexample :
    pythonExecHandle pjUnit ⟨" ", "w", 0⟩ = .toolError noStdoutMsg
    ∧ (" " : String) ≠ "" ∧ ("w" : String) ≠ "" :=
  ⟨by decide, by decide, by decide⟩

/-- Claim C2 (amended): on a zero broker exit code, the direct-code tool
raises the EmptyResultError ToolError exactly when the stdout is empty
or whitespace-only — stderr is never consulted — and in every other
zero-exit case the result is returned to the caller unchanged. -/
theorem c2_empty_result_policy :
    ∀ (α : Type) (pj : String → Option α) (data : RunResp),
      data.exit_code = 0 →
      (pythonExecHandle pj data = .toolError noStdoutMsg ↔ pyStrip data.stdout = "")
      ∧ (pyStrip data.stdout ≠ "" →
          pythonExecHandle pj data
            = .success ⟨data.stdout, data.stderr, data.exit_code, pj data.stdout⟩) := by
  intro α pj data h0
  by_cases hs : pyStrip data.stdout = ""
  · constructor
    · constructor
      · intro _; exact hs
      · intro _; simp [pythonExecHandle, h0, hs]
    · intro hne; exact absurd hs hne
  · constructor
    · constructor
      · intro h
        exact absurd h (by simp [pythonExecHandle, h0, hs])
      · intro h; exact absurd h hs
    · intro _; simp [pythonExecHandle, h0, hs]

/-- Witness for C2: zero exit with stdout "hi" is returned as a success
result carrying both streams and the (failed) JSON parse. -/
theorem c2_witness :
    pythonExecHandle pjUnit ⟨"hi", "e", 0⟩ = .success ⟨"hi", "e", 0, none⟩ :=
  (c2_empty_result_policy Unit pjUnit ⟨"hi", "e", 0⟩ rfl).2 (by decide)

/-- Counterexample to claim C6 as stated: at exit_code=1 with the
non-empty, whitespace-only stderr " ", the claim (iff stderr non-empty)
predicts the error message carries a stderr excerpt; the code produces
exactly the bare excerpt-free message, because it gates the excerpt on
stderr.strip() rather than stderr being non-empty. -/
theorem c6_counterexample :
    (" " : String) ≠ ""
    ∧ pythonExecHandle pjUnit ⟨"", " ", 1⟩ = .toolError "sandbox failed (exit 1)"
    ∧ ("sandbox failed (exit 1)" : String)
        = "sandbox failed (exit " ++ toString (1 : Int) ++ ")" :=
  ⟨by decide, by decide, by decide⟩

/-- Claim C6 (amended): on a non-zero broker exit code the direct-code
tool raises a ToolError whose message carries the exit code and, exactly
when stderr contains a non-whitespace character, an excerpt equal to the
whitespace-stripped stderr, hard-capped at 800 characters with a
trailing ellipsis exactly when the stripped stderr is longer than 800
characters (capped excerpts have length 801). -/
theorem c6_nonzero_exit_error :
    ∀ (α : Type) (pj : String → Option α) (data : RunResp),
      data.exit_code ≠ 0 →
      pythonExecHandle pj data = .toolError (pyErrMsg data.exit_code data.stderr)
      ∧ (pyStrip data.stderr = "" →
          pyErrMsg data.exit_code data.stderr
            = "sandbox failed (exit " ++ toString data.exit_code ++ ")")
      ∧ (pyStrip data.stderr ≠ "" →
          pyErrMsg data.exit_code data.stderr
            = "sandbox failed (exit " ++ toString data.exit_code ++ ")"
              ++ ": " ++ stderrSnippet (pyStrip data.stderr))
      ∧ (∀ s : String,
          (s.length ≤ 800 → stderrSnippet s = s)
          ∧ (800 < s.length →
              stderrSnippet s = String.mk (s.data.take 800) ++ "…"
              ∧ (stderrSnippet s).length = 801)) := by
  intro α pj data hne
  refine ⟨by simp [pythonExecHandle, hne], ?_, ?_, ?_⟩
  · intro h; simp [pyErrMsg, h]
  · intro h; simp [pyErrMsg, h]
  · intro s
    constructor
    · intro h
      simp [stderrSnippet, Nat.not_lt.mpr h]
    · intro h
      refine ⟨by simp [stderrSnippet, h], ?_⟩
      simp only [stderrSnippet, if_pos h]
      show (String.mk (s.data.take 800) ++ "…").length = 801
      rw [String.length_append]
      show (s.data.take 800).length + 1 = 801
      rw [List.length_take]
      have h' : 800 ≤ s.data.length := le_of_lt h
      rw [Nat.min_eq_left h']

/-- Witness for C6: exit code 2 with stderr "boom" yields the ToolError
message carrying the exit code and the short excerpt. -/
theorem c6_witness :
    pythonExecHandle pjUnit ⟨"", "boom", 2⟩ = .toolError "sandbox failed (exit 2): boom" := by
  have h := c6_nonzero_exit_error Unit pjUnit ⟨"", "boom", 2⟩ (by decide)
  exact h.1.trans (congrArg PyOutcome.toolError (by decide))

/-- Claim C10: the direct-code tool treats a supplied empty-string code
exactly like an absent code: the truthiness check substitutes the fixed
introspection snippet for the explicit empty string as well as for None,
the snippet is non-empty, and no selection ever yields the empty
program. -/
theorem c10_empty_code_introspection :
    selectCode (some "") = introspectionSnippet
    ∧ selectCode (some "") = selectCode none
    ∧ introspectionSnippet ≠ ""
    ∧ (∀ c : Option String, selectCode c ≠ "") := by
  refine ⟨rfl, rfl, by decide, ?_⟩
  intro c
  cases c with
  | none => exact (by decide : introspectionSnippet ≠ "")
  | some s =>
      by_cases h : s = ""
      · subst h; decide
      · simp [selectCode, h]

/-! ## Claims about the shell tool (shell_exec.py) -/

/-- Claim C5: an empty outer broker stdout makes the shell tool return
the successful result stdout="", stderr=outer stderr, exit_code=0, for
every outer stderr and outer exit code; by contrast (the deliberate
asymmetry) the direct-code tool raises the EmptyResultError ToolError on
the silent zero-exit broker response. -/
theorem c5_empty_outer_stdout :
    (∀ (parse : String → Option InnerObj) (err : String) (ec : Int),
      shellUnwrap parse ⟨"", err, ec⟩ = ⟨"", err, 0⟩)
    ∧ (∀ (α : Type) (pj : String → Option α),
      pythonExecHandle pj ⟨"", "", 0⟩ = .toolError noStdoutMsg) := by
  constructor
  · intro parse err ec; rfl
  · intro α pj; rfl

/-- Claim C4: when the stripped outer stdout is non-empty and decodes as
the wrapper's JSON object, the shell tool returns the inner stdout and
inner exit code, and the inner stderr except that an empty (or absent)
inner stderr falls back to the outer broker stderr. -/
theorem c4_inner_triple_unwrap :
    ∀ (parse : String → Option InnerObj) (data : RunResp) (inner : InnerObj),
      pyStrip data.stdout ≠ "" →
      parse (pyStrip data.stdout) = some inner →
      (shellUnwrap parse data).stdout = inner.stdout.getD ""
      ∧ (shellUnwrap parse data).exit_code = inner.exit_code.getD 0
      ∧ (inner.stderr.getD "" ≠ "" →
          (shellUnwrap parse data).stderr = inner.stderr.getD "")
      ∧ (inner.stderr.getD "" = "" →
          (shellUnwrap parse data).stderr = data.stderr) := by
  intro parse data inner hne hp
  have e : shellUnwrap parse data
      = ⟨inner.stdout.getD "",
         if inner.stderr.getD "" = "" then data.stderr else inner.stderr.getD "",
         inner.exit_code.getD 0⟩ := by
    simp [shellUnwrap, if_neg hne, hp]
  rw [e]
  refine ⟨rfl, rfl, ?_, ?_⟩
  · intro h; simp [if_neg h]
  · intro h; simp [if_pos h]

/-- Helper parse for the C4 witness: decodes exactly the string "T" into
an inner object with stdout "a", empty stderr and exit code 3
(consistent with json.loads on the corresponding wrapper output). -/
def parseT : String → Option InnerObj :=
  fun s => if s = "T" then some ⟨some "a", some "", some 3⟩ else none

/-- Witness for C4: an outer stdout " T " decoding to the inner triple
(stdout "a", stderr "", exit 3) yields stdout "a", exit code 3, and the
outer stderr via the empty-inner-stderr fallback. -/
theorem c4_witness :
    pyStrip (" T " : String) ≠ ""
    ∧ parseT (pyStrip " T ") = some ⟨some "a", some "", some 3⟩
    ∧ (shellUnwrap parseT ⟨" T ", "outer", 124⟩).stdout = "a"
    ∧ (shellUnwrap parseT ⟨" T ", "outer", 124⟩).stderr = "outer"
    ∧ (shellUnwrap parseT ⟨" T ", "outer", 124⟩).exit_code = 3 := by
  have h := c4_inner_triple_unwrap parseT ⟨" T ", "outer", 124⟩
    ⟨some "a", some "", some 3⟩ (by decide) (by decide)
  exact ⟨by decide, by decide, h.1, h.2.2.2 rfl, h.2.1⟩

/-- A parse abstraction on which every string fails to decode; faithful
to json.loads at the inputs of the C8 theorems, whose outer stdout is
not valid JSON. -/
def noParse : String → Option InnerObj := fun _ => none

/-- Counterexample to claim C8 as stated: for the outer broker response
stdout="x \n" (not decodable as JSON), stderr="e", the claim predicts
the raw outer stdout "x \n" is returned; the code returns the stripped
text "x". -/
theorem c8_counterexample :
    shellUnwrap noParse ⟨"x \n", "e", 0⟩ = ⟨"x", "e", 0⟩
    ∧ (shellUnwrap noParse ⟨"x \n", "e", 0⟩).stdout ≠ "x \n" :=
  ⟨by decide, by decide⟩

/-- Claim C8 (amended): when the stripped outer stdout is non-empty but
does not decode as the wrapper's JSON object, the shell tool does not
fail: it returns the whitespace-stripped outer stdout text as stdout,
the outer stderr, and exit_code=0. -/
theorem c8_unparseable_fallback :
    ∀ (parse : String → Option InnerObj) (data : RunResp),
      pyStrip data.stdout ≠ "" →
      parse (pyStrip data.stdout) = none →
      shellUnwrap parse data = ⟨pyStrip data.stdout, data.stderr, 0⟩ := by
  intro parse data hne hp
  simp [shellUnwrap, if_neg hne, hp]

/-- Witness for C8: the undecodable outer stdout "y" is passed through
with the outer stderr and exit code 0. -/
theorem c8_witness :
    shellUnwrap noParse ⟨"y", "e", 7⟩ = ⟨"y", "e", 0⟩ :=
  c8_unparseable_fallback noParse ⟨"y", "e", 7⟩ (by decide) rfl

/-- Claim C9: a broker timeout of the synthesized shell wrapper produces
the outer triple (stdout="", stderr="TIMEOUT", exit_code=124), and on an
empty outer stdout the shell tool returns the successful result
exit_code=0, stderr="TIMEOUT" whatever the outer exit code is — a
timed-out shell script is reported to the caller as success. -/
theorem c9_shell_timeout_masked :
    (∀ (req : RunReq) (ceiling : Int),
      run req ceiling (fun _ => .timedOut) = .ok ⟨"", "TIMEOUT", 124⟩)
    ∧ (∀ (parse : String → Option InnerObj) (outerExit : Int),
      shellUnwrap parse ⟨"", "TIMEOUT", outerExit⟩ = ⟨"", "TIMEOUT", 0⟩) := by
  constructor
  · intro req ceiling; rfl
  · intro parse outerExit; rfl

end MedSchool
